import Mathlib

/-!
Shallow embedding of `train.py` (`train_framework`) of PyTorch-StudioGAN.

The orchestrator is modelled as a staged computation over an explicit
configuration and an environment describing the checkpoint store.  Every
externally visible action (dataset loading, model construction, replication
patching, checkpoint loading, reference-statistics preparation, trainer
construction, running the training loop, evaluation, visualisation) is
recorded as an `Event` in a trace; Python exceptions become values of `Err`.
-/

namespace StudioGAN

/-- Python exceptions raised by `train_framework` (train.py). -/
inductive Err where
  | zeroDivision : Err
  | assertionError (msg : String) : Err
  | notADirectory : Err
  | indexError : Err
  | keyError (key : String) : Err
  | notImplementedError : Err
deriving DecidableEq, Repr

/-- Python `a % b`: raises `ZeroDivisionError` when `b = 0`
(train.py line 54 computes `batch_size % n_gpus`). -/
def pyMod (a b : Nat) : Except Err Nat :=
  if b = 0 then Except.error Err.zeroDivision else Except.ok (a % b)

/-- Generator loss functions registered in the `G_loss` dict (train.py line 122). -/
inductive GLossFn where
  | loss_dcgan_gen : GLossFn
  | loss_hinge_gen : GLossFn
  | loss_wgan_gen : GLossFn
deriving DecidableEq, Repr

/-- Discriminator loss functions registered in the `D_loss` dict (train.py line 123). -/
inductive DLossFn where
  | loss_dcgan_dis : DLossFn
  | loss_hinge_dis : DLossFn
  | loss_wgan_dis : DLossFn
deriving DecidableEq, Repr

/-- The dict `G_loss = {'vanilla': loss_dcgan_gen, 'hinge': loss_hinge_gen,
'wasserstein': loss_wgan_gen}` (train.py line 122); `none` models a missing key. -/
def G_loss (k : String) : Option GLossFn :=
  if k = "vanilla" then some GLossFn.loss_dcgan_gen
  else if k = "hinge" then some GLossFn.loss_hinge_gen
  else if k = "wasserstein" then some GLossFn.loss_wgan_gen
  else none

/-- The dict `D_loss = {'vanilla': loss_dcgan_dis, 'hinge': loss_hinge_dis,
'wasserstein': loss_wgan_dis}` (train.py line 123). -/
def D_loss (k : String) : Option DLossFn :=
  if k = "vanilla" then some DLossFn.loss_dcgan_dis
  else if k = "hinge" then some DLossFn.loss_hinge_dis
  else if k = "wasserstein" then some DLossFn.loss_wgan_dis
  else none

/-- Observable state of a model object (Generator / Discriminator / EMA copy):
whether it has been wrapped in `DataParallel`, whether
`patch_replication_callback` has been applied to it, and which checkpoint file
(if any) its weights were loaded from. -/
structure ModelState where
  role : String
  dataParallel : Bool
  patched : Bool
  loadedFrom : Option String
deriving DecidableEq, Repr

/-- The `ema_` updater object (train.py line 100): holds references to a source
model and a target (shadow) model. -/
structure EmaState where
  source : ModelState
  target : ModelState
deriving DecidableEq, Repr

/-- Observable state of an optimizer object. -/
structure OptState where
  kind : String
  loadedFrom : Option String
deriving DecidableEq, Repr

/-- Metadata stored in a checkpoint file, as returned by `load_checkpoint`
(train.py lines 144-145): seed, run name, step, best step, and (from the
discriminator checkpoint) best FID and its checkpoint path. -/
structure CkptMeta where
  seed : Nat
  run_name : String
  step : Nat
  best_step : Nat
  best_fid : Option Nat
  best_fid_checkpoint_path : Option String
deriving DecidableEq, Repr

/-- Reference statistics returned by `prepare_inception_moments_eval_dataset`
(train.py line 162): mean, covariance, inception score, its std.  Values are
abstract tokens; only identity matters for the claims. -/
structure Stats where
  mu : Nat
  sigma : Nat
  is_score : Nat
  is_std : Nat
deriving DecidableEq, Repr

/-- Environment: the pieces of the outside world `train_framework` consults.
`globG`/`globD`/`globGema` give, for a slot string ("current" or "best"), the
list of files matching the respective checkpoint filename pattern, in glob
order (train.py lines 142, 143, 148); `ckpt` gives the metadata stored in a
checkpoint file; `prepared` is the value the reference-statistics preparer
would produce. -/
structure Env where
  folderExists : Bool
  globG : String → List String
  globD : String → List String
  globGema : String → List String
  ckpt : String → CkptMeta
  prepared : Stats

/-- The `train_config` dict fields consulted by `train_framework`. -/
structure TrainConfig where
  checkpoint_folder : Option String
  train : Bool
  eval : Bool
  linear_evaluation : Bool
  k_nearest_neighbor : Bool
  interpolation : Bool
deriving DecidableEq, Repr

/-- The parameters of `train_framework` (train.py line 42) relevant to the
control flow under analysis. -/
structure Config where
  seed : Nat
  batch_size : Nat
  n_gpus : Nat
  architecture : String
  img_size : Nat
  conditional_strategy : String
  adv_loss : String
  optimizer : String
  ema : Bool
  synchronized_bn : Bool
  g_init : Bool
  d_init : Bool
  load_current : Bool
  total_step : Nat
  train_config : TrainConfig

/-- Trace events: externally visible actions of `train_framework`, in program
order. -/
inductive Event where
  | load_train_dataset : Event
  | load_eval_dataset : Event
  | build_gen (syncBn init : Bool) : Event
  | build_dis (syncBn init : Bool) : Event
  | build_gen_copy (syncBn init : Bool) : Event
  | data_parallel (role : String) : Event
  | patch_replication (role : String) : Event
  | make_optimizers (kind : String) : Event
  | load_ckpt (role : String) (path : String) (withOptimizer : Bool) : Event
  | prepare_stats : Event
  | build_trainer (g : GLossFn) (d : DLossFn) (best_step : Nat) : Event
  | run_ours (current total : Nat) : Event
  | run (current total : Nat) : Event
  | evaluation (step : Nat) : Event
  | nearest_neighbor : Event
  | interpolation : Event
  | linear_classification : Event
deriving DecidableEq, Repr

/-- `true` exactly on the two training-loop invocation events. -/
def Event.isRun : Event → Bool
  | Event.run _ _ => true
  | Event.run_ours _ _ => true
  | _ => false

/-- `true` exactly on model-construction events (Generator, Discriminator,
EMA copy). -/
def Event.isBuildModel : Event → Bool
  | Event.build_gen _ _ => true
  | Event.build_dis _ _ => true
  | Event.build_gen_copy _ _ => true
  | _ => false

/-- `true` exactly on the reference-statistics preparation event. -/
def Event.isPrep : Event → Bool
  | Event.prepare_stats => true
  | _ => false

/-- `true` exactly on the contrastive training-loop event (`trainer.run_ours`). -/
def Event.isRunOurs : Event → Bool
  | Event.run_ours _ _ => true
  | _ => false

/-- `true` exactly on the standard training-loop event (`trainer.run`). -/
def Event.isRunStd : Event → Bool
  | Event.run _ _ => true
  | _ => false

/-- Sequencing for the trace-and-exception computation: on failure the events
so far are kept and the failure propagates; on success the continuation's
events are appended. -/
def seqE {α β : Type} (x : List Event × Except Err α)
    (f : α → List Event × Except Err β) : List Event × Except Err β :=
  match x with
  | (evs, Except.error e) => (evs, Except.error e)
  | (evs, Except.ok a) =>
      let r := f a
      (evs ++ r.1, r.2)

def bs_assert_msg : String := "batch_size should be divided by the number of gpus "

def dcgan_assert_msg : String :=
  "Sry, StudioGAN does not support dcgan models for generation of images larger than 32 resolution."

def seed_assert_msg : String := "seed for sampling random numbers should be same!"

/-- State after model and optimizer construction (train.py lines 48-135). -/
structure StBuild where
  gen : ModelState
  dis : ModelState
  gen_copy : Option ModelState
  gen_ema : Option EmaState
  g_opt : OptState
  d_opt : OptState
deriving DecidableEq, Repr

/-- train.py lines 48-135: seed fixing, batch-size/GPU validation, dataset
loading, architecture check, model construction, EMA copy, multi-GPU
replication, optimizer construction. -/
def stageBuild (cfg : Config) : List Event × Except Err StBuild :=
  match pyMod cfg.batch_size cfg.n_gpus with
  | Except.error e => ([], Except.error e)
  | Except.ok r =>
    if r ≠ 0 then ([], Except.error (Err.assertionError bs_assert_msg))
    else
      let evs0 : List Event := [Event.load_train_dataset, Event.load_eval_dataset]
      if cfg.architecture = "dcgan" ∧ cfg.img_size ≠ 32 then
        (evs0, Except.error (Err.assertionError dcgan_assert_msg))
      else
        let gen0 : ModelState := ⟨"G", false, false, none⟩
        let dis0 : ModelState := ⟨"D", false, false, none⟩
        let evs1 := evs0 ++ [Event.build_gen cfg.synchronized_bn cfg.g_init,
                             Event.build_dis cfg.synchronized_bn cfg.d_init]
        let copy0 : ModelState := ⟨"G_ema", false, false, none⟩
        let evs2 := if cfg.ema then evs1 ++ [Event.build_gen_copy false false] else evs1
        let gen_copy0 : Option ModelState := if cfg.ema then some copy0 else none
        let gen_ema0 : Option EmaState :=
          if cfg.ema then some ⟨gen0, copy0⟩ else none
        if cfg.n_gpus > 1 then
          let gen1 : ModelState := { gen0 with dataParallel := true }
          let dis1 : ModelState := { dis0 with dataParallel := true }
          let gen_copy1 := if cfg.ema then some { copy0 with dataParallel := true } else none
          let evs3 := evs2 ++ [Event.data_parallel "G", Event.data_parallel "D"]
                    ++ (if cfg.ema then [Event.data_parallel "G_ema"] else [])
          if cfg.synchronized_bn then
            let gen2 : ModelState := { gen1 with patched := true }
            let dis2 : ModelState := { dis1 with patched := true }
            let evs4 := evs3 ++ [Event.patch_replication "G", Event.patch_replication "D"]
            mkOpt cfg evs4 gen2 dis2 gen_copy1 gen_ema0
          else
            mkOpt cfg evs3 gen1 dis1 gen_copy1 gen_ema0
        else
          mkOpt cfg evs2 gen0 dis0 gen_copy0 gen_ema0
where
  /-- train.py lines 125-135: optimizer family selection; an unknown family
  raises `NotImplementedError`. -/
  mkOpt (cfg : Config) (evs : List Event) (gen dis : ModelState)
      (gen_copy : Option ModelState) (gen_ema : Option EmaState) :
      List Event × Except Err StBuild :=
    if cfg.optimizer = "SGD" ∨ cfg.optimizer = "RMSprop" ∨ cfg.optimizer = "Adam" then
      (evs ++ [Event.make_optimizers cfg.optimizer],
       Except.ok ⟨gen, dis, gen_copy, gen_ema, ⟨cfg.optimizer, none⟩, ⟨cfg.optimizer, none⟩⟩)
    else (evs, Except.error Err.notImplementedError)

/-- State after the optional checkpoint restore (train.py lines 137-157). -/
structure StCkpt where
  gen : ModelState
  dis : ModelState
  gen_copy : Option ModelState
  gen_ema : Option EmaState
  g_opt : OptState
  d_opt : OptState
  step : Nat
  best_step : Nat
  best_fid : Option Nat
  best_fid_checkpoint_path : Option String
deriving DecidableEq, Repr

/-- The checkpoint slot string (train.py line 138):
`"current" if load_current is True else "best"`. -/
def when_of (cfg : Config) : String :=
  if cfg.load_current then "current" else "best"

/-- train.py lines 144-155 once the G and D checkpoint files are resolved:
load G (with its optimizer) and D (with its optimizer and the best-FID
metadata); if EMA is on, resolve and load the G_ema file passing `None` for
the optimizer and rebind `Gen_ema.source, Gen_ema.target`; finally assert
that the configured seed equals the restored seed. -/
def ckptLoad (cfg : Config) (env : Env) (s : StBuild) (gpath dpath : String) :
    List Event × Except Err StCkpt :=
  let dmeta := env.ckpt dpath
  let gen1 : ModelState := { s.gen with loadedFrom := some gpath }
  let dis1 : ModelState := { s.dis with loadedFrom := some dpath }
  let g_opt1 : OptState := { s.g_opt with loadedFrom := some gpath }
  let d_opt1 : OptState := { s.d_opt with loadedFrom := some dpath }
  let evs1 : List Event :=
    [Event.load_ckpt "G" gpath true, Event.load_ckpt "D" dpath true]
  if cfg.ema then
    match env.globGema (when_of cfg) with
    | [] => (evs1, Except.error Err.indexError)
    | epath :: _ =>
      let gen_copy1 : Option ModelState :=
        s.gen_copy.map (fun gc => { gc with loadedFrom := some epath })
      let gen_ema1 : Option EmaState :=
        gen_copy1.elim s.gen_ema (fun gc => some ⟨gen1, gc⟩)
      let evs2 := evs1 ++ [Event.load_ckpt "G_ema" epath false]
      if cfg.seed = dmeta.seed then
        (evs2, Except.ok ⟨gen1, dis1, gen_copy1, gen_ema1, g_opt1, d_opt1,
          dmeta.step, dmeta.best_step, dmeta.best_fid, dmeta.best_fid_checkpoint_path⟩)
      else (evs2, Except.error (Err.assertionError seed_assert_msg))
  else
    if cfg.seed = dmeta.seed then
      (evs1, Except.ok ⟨gen1, dis1, s.gen_copy, s.gen_ema, g_opt1, d_opt1,
        dmeta.step, dmeta.best_step, dmeta.best_fid, dmeta.best_fid_checkpoint_path⟩)
    else (evs1, Except.error (Err.assertionError seed_assert_msg))

/-- train.py lines 137-157: when `train_config['checkpoint_folder']` is set,
resolve the slot ("current" if `load_current` else "best"), check the folder
exists, glob for the G and D checkpoint files taking element `[0]` of each
glob result (an empty glob result raises `IndexError`), then perform the
loads and the seed assertion (`ckptLoad`). -/
def stageCkpt (cfg : Config) (env : Env) (s : StBuild) : List Event × Except Err StCkpt :=
  match cfg.train_config.checkpoint_folder with
  | none =>
      ([], Except.ok ⟨s.gen, s.dis, s.gen_copy, s.gen_ema, s.g_opt, s.d_opt, 0, 0, none, none⟩)
  | some _ =>
      if ¬ env.folderExists then ([], Except.error Err.notADirectory)
      else
        match env.globG (when_of cfg) with
        | [] => ([], Except.error Err.indexError)
        | gpath :: _ =>
          match env.globD (when_of cfg) with
          | [] => ([], Except.error Err.indexError)
          | dpath :: _ => ckptLoad cfg env s gpath dpath

/-- train.py lines 159-171: when `train_config['eval']`, invoke the
reference-statistics preparer once; otherwise `mu, sigma` stay `None`. -/
def stagePrep (cfg : Config) (env : Env) : List Event × Except Err (Option Stats) :=
  if cfg.train_config.eval then ([Event.prepare_stats], Except.ok (some env.prepared))
  else ([], Except.ok none)

/-- train.py lines 173-191: when `train_config['linear_evaluation']`, build the
linear classifier (replicated and, when `synchronized_bn`, patched on
multi-GPU) and its optimizer (same family selection, same
`NotImplementedError` fallback). -/
def stageLinear (cfg : Config) : List Event × Except Err Unit :=
  if cfg.train_config.linear_evaluation then
    let evs0 : List Event :=
      if cfg.n_gpus > 1 then
        [Event.data_parallel "Linear"]
          ++ (if cfg.synchronized_bn then [Event.patch_replication "Linear"] else [])
      else []
    if cfg.optimizer = "SGD" ∨ cfg.optimizer = "RMSprop" ∨ cfg.optimizer = "Adam" then
      (evs0, Except.ok ())
    else (evs0, Except.error Err.notImplementedError)
  else ([], Except.ok ())

/-- train.py lines 225-226 (inside the `Trainer(...)` call): the dict lookups
`G_loss[adv_loss]` and `D_loss[adv_loss]`; a missing key raises `KeyError`. -/
def lookupLosses (adv_loss : String) : Except Err (GLossFn × DLossFn) :=
  match G_loss adv_loss with
  | none => Except.error (Err.keyError adv_loss)
  | some g =>
    match D_loss adv_loss with
    | none => Except.error (Err.keyError adv_loss)
    | some d => Except.ok (g, d)

/-- train.py line 264: the conditional strategies routed to the
representation-learning loop variant `run_ours`. -/
def contrastive_strategy (cfg : Config) : Prop :=
  cfg.conditional_strategy = "ContraGAN" ∨ cfg.conditional_strategy = "Proxy_NCA_GAN"
    ∨ cfg.conditional_strategy = "XT_Xent_GAN"

instance (cfg : Config) : Decidable (contrastive_strategy cfg) := by
  unfold contrastive_strategy
  infer_instance

/-- Modelled from the spec: `Trainer.run` and `Trainer.run_ours` live in the
trainer module, which is not among the analysed sources.  The spec states the
loop is driven by the step counter up to `total_step`, terminates when the
counter reaches `total_step`, and returns the final step count. -/
def trainerRun (current total : Nat) : Nat :=
  if current < total then total else current

/-- Final result of `train_framework`. -/
structure TFResult where
  gen : ModelState
  dis : ModelState
  gen_copy : Option ModelState
  gen_ema : Option EmaState
  g_opt : OptState
  d_opt : OptState
  trainer_stats : Option Stats
  g_loss_fn : GLossFn
  d_loss_fn : DLossFn
  step : Nat
  best_step : Nat
deriving DecidableEq, Repr

/-- train.py lines 194-280: Trainer construction (loss lookup at lines
225-226), training-loop selection on the conditional strategy (lines 264-267,
the contrastive strategies use `run_ours`), then optional evaluation,
nearest-neighbor, interpolation and linear-classification passes.  The
`Trainer.run` / `run_ours` return value is modelled from the spec by
`trainerRun`; `Trainer.evaluation` (not in the analysed sources) is modelled
from the spec as consuming the cached statistics, i.e. it emits no
`prepare_stats` event. -/
def stageTrainerRun (cfg : Config) (s : StCkpt) (stats : Option Stats) :
    List Event × Except Err TFResult :=
  match lookupLosses cfg.adv_loss with
  | Except.error e => ([], Except.error e)
  | Except.ok (g, d) =>
    let evs0 : List Event := [Event.build_trainer g d s.best_step]
    let evs1 : List Event :=
      if contrastive_strategy cfg ∧ cfg.train_config.train then
        evs0 ++ [Event.run_ours s.step cfg.total_step]
      else if cfg.train_config.train then
        evs0 ++ [Event.run s.step cfg.total_step]
      else evs0
    let step1 : Nat :=
      if cfg.train_config.train then trainerRun s.step cfg.total_step else s.step
    let evs2 := if cfg.train_config.eval then evs1 ++ [Event.evaluation step1] else evs1
    let evs3 := if cfg.train_config.k_nearest_neighbor then evs2 ++ [Event.nearest_neighbor] else evs2
    let evs4 := if cfg.train_config.interpolation then evs3 ++ [Event.interpolation] else evs3
    let evs5 := if cfg.train_config.linear_evaluation then evs4 ++ [Event.linear_classification] else evs4
    (evs5, Except.ok ⟨s.gen, s.dis, s.gen_copy, s.gen_ema, s.g_opt, s.d_opt,
                      stats, g, d, step1, s.best_step⟩)

/-- The whole of `train_framework` (train.py lines 42-280), as the sequence of
its stages. -/
def train_framework (cfg : Config) (env : Env) : List Event × Except Err TFResult :=
  seqE (stageBuild cfg) fun a =>
  seqE (stageCkpt cfg env a) fun b =>
  seqE (stagePrep cfg env) fun stats =>
  seqE (stageLinear cfg) fun _ =>
  stageTrainerRun cfg b stats

/-- The step the training loop starts from: `0` on a fresh start (train.py
line 60), the step stored in the discriminator checkpoint on resume (train.py
line 145, the last assignment to `step` before the loop). -/
def resume_step (cfg : Config) (env : Env) : Nat :=
  match cfg.train_config.checkpoint_folder with
  | none => 0
  | some _ =>
    match env.globD (when_of cfg) with
    | [] => 0
    | dpath :: _ => (env.ckpt dpath).step

/-- `true` exactly on checkpoint-load events. -/
def Event.isLoad : Event → Bool
  | Event.load_ckpt _ _ _ => true
  | _ => false

/-- `true` exactly when the run completed without raising. -/
def okB {α : Type} : Except Err α → Bool
  | Except.ok _ => true
  | _ => false

/-- A baseline configuration for concrete instantiations: one GPU, batch 4,
hinge loss, Adam, no EMA, no resume, training on, everything else off. -/
def cfg0 : Config :=
  { seed := 0, batch_size := 4, n_gpus := 1, architecture := "biggan", img_size := 32,
    conditional_strategy := "ACGAN", adv_loss := "hinge", optimizer := "Adam",
    ema := false, synchronized_bn := false, g_init := true, d_init := true,
    load_current := true, total_step := 10,
    train_config := { checkpoint_folder := none, train := true, eval := false,
                      linear_evaluation := false, k_nearest_neighbor := false,
                      interpolation := false } }

/-- A baseline environment for concrete instantiations. -/
def env0 : Env :=
  { folderExists := true, globG := fun _ => [], globD := fun _ => [],
    globGema := fun _ => [],
    ckpt := fun _ => { seed := 0, run_name := "run", step := 0, best_step := 0,
                       best_fid := none, best_fid_checkpoint_path := none },
    prepared := { mu := 1, sigma := 2, is_score := 3, is_std := 4 } }

/-- A resume configuration for concrete instantiations. -/
def cfgR : Config :=
  { cfg0 with train_config := { (cfg0.train_config) with checkpoint_folder := some "ck" } }

/-- An environment holding one G, one D and one G_ema checkpoint file whose
metadata records seed 0 and step 42. -/
def envR : Env :=
  { env0 with
    globG := (fun _ => ["g.pth"]), globD := (fun _ => ["d.pth"]),
    globGema := (fun _ => ["e.pth"]),
    ckpt := (fun _ => { seed := 0, run_name := "r", step := 42, best_step := 30,
                        best_fid := none, best_fid_checkpoint_path := none }) }

/-- Like `envR` but with two files matching the Generator checkpoint
pattern. -/
def envR2 : Env :=
  { envR with globG := (fun _ => ["g1.pth", "g2.pth"]) }

/-! ### Helper lemmas about the sequencing combinator -/

theorem seqE_error {α β : Type} {x : List Event × Except Err α}
    {f : α → List Event × Except Err β} {e : Err} (h : x.2 = Except.error e) :
    seqE x f = (x.1, Except.error e) := by
  obtain ⟨evs, r⟩ := x
  cases r with
  | error e' => cases h; rfl
  | ok a => simp at h

theorem seqE_ok {α β : Type} {x : List Event × Except Err α}
    {f : α → List Event × Except Err β} {a : α} (h : x.2 = Except.ok a) :
    seqE x f = (x.1 ++ (f a).1, (f a).2) := by
  obtain ⟨evs, r⟩ := x
  cases r with
  | error e' => simp at h
  | ok a' =>
    have : a' = a := by injection h
    subst this
    rfl

theorem seqE_snd_ok_inv {α β : Type} {x : List Event × Except Err α}
    {f : α → List Event × Except Err β} {c : β}
    (h : (seqE x f).2 = Except.ok c) : ∃ a, x.2 = Except.ok a := by
  cases hx : x.2 with
  | error e => rw [seqE_error hx] at h; simp at h
  | ok a => exact ⟨a, rfl⟩

/-- Successful runs decompose into the five successful stages, with the trace
being the concatenation of the stages' traces in program order. -/
theorem train_framework_ok_decompose {cfg : Config} {env : Env} {res : TFResult}
    (h : (train_framework cfg env).2 = Except.ok res) :
    ∃ a b stats,
      (stageBuild cfg).2 = Except.ok a ∧
      (stageCkpt cfg env a).2 = Except.ok b ∧
      (stagePrep cfg env).2 = Except.ok stats ∧
      (stageTrainerRun cfg b stats).2 = Except.ok res ∧
      (train_framework cfg env).1 =
        (stageBuild cfg).1 ++ ((stageCkpt cfg env a).1 ++ ((stagePrep cfg env).1
          ++ ((stageLinear cfg).1 ++ (stageTrainerRun cfg b stats).1))) := by
  unfold train_framework at h ⊢
  obtain ⟨a, hA⟩ := seqE_snd_ok_inv h
  rw [seqE_ok hA] at h ⊢
  simp only at h
  obtain ⟨b, hB⟩ := seqE_snd_ok_inv h
  rw [seqE_ok hB] at h ⊢
  simp only at h
  obtain ⟨stats, hP⟩ := seqE_snd_ok_inv h
  rw [seqE_ok hP] at h ⊢
  simp only at h
  obtain ⟨u, hL⟩ := seqE_snd_ok_inv h
  rw [seqE_ok hL] at h ⊢
  simp only at h
  exact ⟨a, b, stats, hA, hB, hP, h, by simp⟩

/-! ### Per-stage trace characterisations -/

/-- Events emitted while building models and optimizers: no training-loop
invocation, no statistics preparation, no checkpoint load; the replication
patch is never applied to the EMA copy; every EMA-copy construction passes
`synchronized_bn=False, initialize=False`. -/
theorem stageBuild_mem (cfg : Config) :
    ∀ e ∈ (stageBuild cfg).1,
      e.isRun = false ∧ e.isPrep = false ∧ e.isLoad = false ∧
      e ≠ Event.patch_replication "G_ema" ∧
      (∀ sb i, e = Event.build_gen_copy sb i → sb = false ∧ i = false) := by
  intro e he
  unfold stageBuild stageBuild.mkOpt at he
  repeat' split at he
  all_goals simp_all [Event.isRun, Event.isPrep, Event.isLoad]
  all_goals repeat' first
    | subst he
    | rcases he with rfl | he
  all_goals simp [Event.isRun, Event.isPrep, Event.isLoad]

/-- Without a `checkpoint_folder` the restore stage does nothing: no events,
step counter 0 (train.py line 60), models untouched. -/
theorem stageCkpt_none {cfg : Config} (env : Env) (a : StBuild)
    (h : cfg.train_config.checkpoint_folder = none) :
    stageCkpt cfg env a =
      ([], Except.ok ⟨a.gen, a.dis, a.gen_copy, a.gen_ema, a.g_opt, a.d_opt, 0, 0, none, none⟩) := by
  unfold stageCkpt
  rw [h]

/-- Events emitted by the load step are exactly checkpoint loads; the `G_ema`
load never carries optimizer state. -/
theorem ckptLoad_mem (cfg : Config) (env : Env) (a : StBuild) (gpath dpath : String) :
    ∀ e ∈ (ckptLoad cfg env a gpath dpath).1,
      e.isRun = false ∧ e.isPrep = false ∧ e.isBuildModel = false ∧ e.isLoad = true ∧
      e ≠ Event.patch_replication "G_ema" ∧
      (∀ p w, e = Event.load_ckpt "G_ema" p w → w = false) := by
  intro e he
  simp only [ckptLoad] at he
  repeat' split at he
  all_goals try simp_all [Event.isRun, Event.isPrep, Event.isBuildModel, Event.isLoad]
  all_goals repeat' first
    | subst he
    | rcases he with rfl | he
  all_goals simp [Event.isRun, Event.isPrep, Event.isBuildModel, Event.isLoad]

/-- Events emitted by the restore stage are exactly checkpoint loads; the
`G_ema` load never carries optimizer state; no training loop, no statistics
preparation, no model construction, no replication patch. -/
theorem stageCkpt_mem (cfg : Config) (env : Env) (a : StBuild) :
    ∀ e ∈ (stageCkpt cfg env a).1,
      e.isRun = false ∧ e.isPrep = false ∧ e.isBuildModel = false ∧ e.isLoad = true ∧
      e ≠ Event.patch_replication "G_ema" ∧
      (∀ p w, e = Event.load_ckpt "G_ema" p w → w = false) := by
  intro e he
  unfold stageCkpt at he
  repeat' split at he
  all_goals first
    | exact absurd he (by simp)
    | exact ckptLoad_mem cfg env a _ _ e he

/-- The preparation stage when evaluation is enabled: exactly one preparer
invocation, its result cached (train.py lines 159-171). -/
theorem stagePrep_eval {cfg : Config} (env : Env) (h : cfg.train_config.eval = true) :
    stagePrep cfg env = ([Event.prepare_stats], Except.ok (some env.prepared)) := by
  unfold stagePrep
  rw [h]
  rfl

/-- The preparation stage when evaluation is disabled: nothing happens. -/
theorem stagePrep_noeval {cfg : Config} (env : Env) (h : cfg.train_config.eval = false) :
    stagePrep cfg env = ([], Except.ok none) := by
  unfold stagePrep
  rw [h]
  rfl

/-- The linear-probe setup emits no training loop, preparation, model
construction or checkpoint load events, and never patches the EMA copy. -/
theorem stageLinear_mem (cfg : Config) :
    ∀ e ∈ (stageLinear cfg).1,
      e.isRun = false ∧ e.isPrep = false ∧ e.isBuildModel = false ∧ e.isLoad = false ∧
      e ≠ Event.patch_replication "G_ema" := by
  intro e he
  unfold stageLinear at he
  repeat' split at he
  all_goals simp_all [Event.isRun, Event.isPrep, Event.isBuildModel, Event.isLoad]
  all_goals repeat' first
    | subst he
    | rcases he with rfl | he
  all_goals simp [Event.isRun, Event.isPrep, Event.isBuildModel, Event.isLoad]

/-- The trainer stage emits no preparation, model construction, checkpoint
load or replication-patch events. -/
theorem stageTrainerRun_mem (cfg : Config) (s : StCkpt) (stats : Option Stats) :
    ∀ e ∈ (stageTrainerRun cfg s stats).1,
      e.isPrep = false ∧ e.isBuildModel = false ∧ e.isLoad = false ∧
      e ≠ Event.patch_replication "G_ema" := by
  intro e he
  unfold stageTrainerRun at he
  repeat' split at he
  all_goals simp_all [Event.isPrep, Event.isBuildModel, Event.isLoad]
  all_goals repeat' first
    | subst he
    | rcases he with rfl | he
  all_goals simp [Event.isPrep, Event.isBuildModel, Event.isLoad]

/-- When training is disabled, the trainer stage emits no training-loop
events (train.py lines 264-267 are guarded by `train_config['train']`). -/
theorem stageTrainerRun_no_train {cfg : Config} (s : StCkpt) (stats : Option Stats)
    (h : cfg.train_config.train = false) :
    ∀ e ∈ (stageTrainerRun cfg s stats).1, e.isRun = false := by
  intro e he
  unfold stageTrainerRun at he
  repeat' split at he
  all_goals simp_all [Event.isRun]
  all_goals repeat' first
    | subst he
    | rcases he with rfl | he
  all_goals simp [Event.isRun]

/-! ### Success-path characterisations -/

/-- What a successful build stage guarantees: with EMA on, the copy is
constructed (with `synchronized_bn=False, initialize=False`, per
`stageBuild_mem`) and is never patched; with EMA off there is no copy; on
multi-GPU with `synchronized_bn`, the live Generator and Discriminator are
patched. -/
theorem stageBuild_ok {cfg : Config} {a : StBuild}
    (h : (stageBuild cfg).2 = Except.ok a) :
    (cfg.ema = true → Event.build_gen_copy false false ∈ (stageBuild cfg).1 ∧
       ∃ gc, a.gen_copy = some gc ∧ gc.patched = false ∧ gc.role = "G_ema") ∧
    (cfg.ema = false → a.gen_copy = none ∧ a.gen_ema = none) ∧
    (1 < cfg.n_gpus → cfg.synchronized_bn = true →
       a.gen.patched = true ∧ a.dis.patched = true ∧
       Event.patch_replication "G" ∈ (stageBuild cfg).1 ∧
       Event.patch_replication "D" ∈ (stageBuild cfg).1) := by
  simp only [stageBuild, stageBuild.mkOpt] at h ⊢
  repeat' split at h
  all_goals repeat' split
  all_goals dsimp only at h
  all_goals try (injection h with h2; subst h2)
  all_goals simp_all

/-- What a successful checkpoint load guarantees (train.py lines 144-155):
seed equality was checked, G and D (with optimizers) restored from the given
paths, step/best-step taken from the D checkpoint metadata, and with EMA on
the copy restored (weights only) from the head of the G_ema glob result and
the updater rebound to the restored models. -/
theorem ckptLoad_ok {cfg : Config} {env : Env} {a : StBuild} {gpath dpath : String}
    {b : StCkpt} (h : (ckptLoad cfg env a gpath dpath).2 = Except.ok b) :
    cfg.seed = (env.ckpt dpath).seed ∧
    b.gen = { a.gen with loadedFrom := some gpath } ∧
    b.dis = { a.dis with loadedFrom := some dpath } ∧
    b.g_opt = { a.g_opt with loadedFrom := some gpath } ∧
    b.d_opt = { a.d_opt with loadedFrom := some dpath } ∧
    b.step = (env.ckpt dpath).step ∧
    b.best_step = (env.ckpt dpath).best_step ∧
    Event.load_ckpt "G" gpath true ∈ (ckptLoad cfg env a gpath dpath).1 ∧
    Event.load_ckpt "D" dpath true ∈ (ckptLoad cfg env a gpath dpath).1 ∧
    (cfg.ema = true → ∃ epath es, env.globGema (when_of cfg) = epath :: es ∧
       b.gen_copy = a.gen_copy.map (fun gc => { gc with loadedFrom := some epath }) ∧
       b.gen_ema = b.gen_copy.elim a.gen_ema (fun gc => some ⟨b.gen, gc⟩) ∧
       Event.load_ckpt "G_ema" epath false ∈ (ckptLoad cfg env a gpath dpath).1) ∧
    (cfg.ema = false → b.gen_copy = a.gen_copy ∧ b.gen_ema = a.gen_ema) := by
  simp only [ckptLoad] at h ⊢
  repeat' split at h
  all_goals repeat' split
  all_goals dsimp only at h
  all_goals try (injection h with h2; subst h2)
  all_goals simp_all

/-- A successful restore stage with a configured checkpoint folder passes
through the existence check and the two globs, taking the head of each. -/
theorem stageCkpt_some_ok {cfg : Config} {env : Env} {a : StBuild} {b : StCkpt} {f : String}
    (hcf : cfg.train_config.checkpoint_folder = some f)
    (h : (stageCkpt cfg env a).2 = Except.ok b) :
    ∃ gpath gs dpath ds,
      env.globG (when_of cfg) = gpath :: gs ∧
      env.globD (when_of cfg) = dpath :: ds ∧
      stageCkpt cfg env a = ckptLoad cfg env a gpath dpath := by
  unfold stageCkpt at h ⊢
  rw [hcf] at h ⊢
  dsimp only at h ⊢
  split at h
  case _ hcond => simp at h
  case _ hcond =>
    rw [if_neg hcond]
    rcases hg : env.globG (when_of cfg) with _ | ⟨gpath, gs⟩
    · simp [hg] at h
    · rcases hd : env.globD (when_of cfg) with _ | ⟨dpath, ds⟩
      · simp [hg, hd] at h
      · exact ⟨gpath, gs, dpath, ds, rfl, rfl, rfl⟩

/-- A seed mismatch makes the load step fail; when the EMA glob cannot fail
first, the failure is precisely the seed assertion (train.py line 153). -/
theorem ckptLoad_mismatch {cfg : Config} {env : Env} (a : StBuild) {gpath dpath : String}
    (hne : cfg.seed ≠ (env.ckpt dpath).seed) :
    (∃ er, (ckptLoad cfg env a gpath dpath).2 = Except.error er) ∧
    ((cfg.ema = true → env.globGema (when_of cfg) ≠ []) →
      (ckptLoad cfg env a gpath dpath).2 = Except.error (Err.assertionError seed_assert_msg)) := by
  simp only [ckptLoad]
  repeat' split
  all_goals simp_all

/-- A successful dict lookup pins both loss functions to the registered pair. -/
theorem lookupLosses_ok {k : String} {g : GLossFn} {d : DLossFn}
    (h : lookupLosses k = Except.ok (g, d)) :
    G_loss k = some g ∧ D_loss k = some d := by
  unfold lookupLosses at h
  cases hG : G_loss k <;> cases hD : D_loss k <;> simp_all

/-- A missing adversarial-loss key fails the trainer construction with a
`KeyError` before any trainer event (train.py line 225). -/
theorem stageTrainerRun_keyError {cfg : Config} (s : StCkpt) (stats : Option Stats)
    (h : G_loss cfg.adv_loss = none) :
    stageTrainerRun cfg s stats = ([], Except.error (Err.keyError cfg.adv_loss)) := by
  unfold stageTrainerRun lookupLosses
  rw [h]

/-- Zero detected devices make the batch-size check itself raise
`ZeroDivisionError` (train.py line 54). -/
theorem stageBuild_div_zero {cfg : Config} (h : cfg.n_gpus = 0) :
    stageBuild cfg = ([], Except.error Err.zeroDivision) := by
  unfold stageBuild pyMod
  rw [h]
  simp

/-- A batch size not divisible by the (positive) device count fails the
assertion at train.py line 54 with an empty trace. -/
theorem stageBuild_bad_batch {cfg : Config} (h0 : cfg.n_gpus ≠ 0)
    (h : cfg.batch_size % cfg.n_gpus ≠ 0) :
    stageBuild cfg = ([], Except.error (Err.assertionError bs_assert_msg)) := by
  unfold stageBuild pyMod
  rw [if_neg h0]
  simp [h]

/-- A failing build stage is the whole of `train_framework`. -/
theorem train_framework_of_build_error {cfg : Config} (env : Env) {e : Err}
    (h : (stageBuild cfg).2 = Except.error e) :
    train_framework cfg env = ((stageBuild cfg).1, Except.error e) := by
  unfold train_framework
  exact seqE_error h

/-- `List.countP` distributes over an `if` on lists. -/
theorem countP_ite {α : Type} (p : α → Bool) (c : Prop) [Decidable c] (l1 l2 : List α) :
    (if c then l1 else l2).countP p = if c then l1.countP p else l2.countP p := by
  split <;> rfl

/-- List membership distributes over an `if` on lists. -/
theorem mem_ite_list {α : Type} (e : α) (c : Prop) [Decidable c] (l1 l2 : List α) :
    (e ∈ (if c then l1 else l2)) = (if c then e ∈ l1 else e ∈ l2) := by
  split <;> rfl

set_option maxHeartbeats 1000000 in
/-- What a successful trainer stage guarantees: the result carries the stage
input's models and statistics unchanged, the loss pair is exactly the
registered pair for `adv_loss`, the final step is the (spec-modelled) loop
result, the loop variant matches the conditional strategy, and evaluation is
called on the final step. -/
theorem stageTrainerRun_ok {cfg : Config} {s : StCkpt} {stats : Option Stats} {res : TFResult}
    (h : (stageTrainerRun cfg s stats).2 = Except.ok res) :
    res.gen = s.gen ∧ res.dis = s.dis ∧ res.gen_copy = s.gen_copy ∧ res.gen_ema = s.gen_ema ∧
    res.trainer_stats = stats ∧ res.best_step = s.best_step ∧
    G_loss cfg.adv_loss = some res.g_loss_fn ∧
    D_loss cfg.adv_loss = some res.d_loss_fn ∧
    res.step = (if cfg.train_config.train = true then trainerRun s.step cfg.total_step else s.step) ∧
    (cfg.train_config.train = true → contrastive_strategy cfg →
       Event.run_ours s.step cfg.total_step ∈ (stageTrainerRun cfg s stats).1 ∧
       (stageTrainerRun cfg s stats).1.countP Event.isRunOurs = 1 ∧
       (stageTrainerRun cfg s stats).1.countP Event.isRunStd = 0) ∧
    (cfg.train_config.train = true → ¬ contrastive_strategy cfg →
       Event.run s.step cfg.total_step ∈ (stageTrainerRun cfg s stats).1 ∧
       (stageTrainerRun cfg s stats).1.countP Event.isRunStd = 1 ∧
       (stageTrainerRun cfg s stats).1.countP Event.isRunOurs = 0) ∧
    (cfg.train_config.eval = true → Event.evaluation res.step ∈ (stageTrainerRun cfg s stats).1) := by
  simp only [stageTrainerRun] at h ⊢
  rcases hlk : lookupLosses cfg.adv_loss with er | ⟨g, d⟩
  all_goals try simp only [hlk] at h ⊢
  · simp at h
  · obtain ⟨hG, hD⟩ := lookupLosses_ok hlk
    repeat' split at h
    all_goals try (injection h with h2; subst h2)
    all_goals simp_all [List.countP_append, List.countP_cons, List.countP_nil,
      Event.isRunOurs, Event.isRunStd, trainerRun, countP_ite, mem_ite_list, ite_self]

/-- A list with no `p`-elements has `countP p` zero. -/
theorem countP_eq_zero_of {α : Type} {p : α → Bool} {l : List α}
    (h : ∀ a ∈ l, p a = false) : l.countP p = 0 := by
  induction l with
  | nil => rfl
  | cons x xs ih =>
    rw [List.countP_cons]
    have hx := h x (List.mem_cons_self x xs)
    have ih2 := ih (fun a ha => h a (List.mem_cons_of_mem x ha))
    simp [hx, ih2]

/-- An `Except` that is never `ok` is an error. -/
theorem except_error_of_not_ok {α : Type} {x : Except Err α}
    (h : ∀ r, x ≠ Except.ok r) : ∃ er, x = Except.error er := by
  cases x with
  | error e => exact ⟨e, rfl⟩
  | ok r => exact absurd rfl (h r)

/-- Every training-loop event in a run's trace comes from the trainer stage,
which is reached only after the build, restore and preparation stages all
succeeded. -/
theorem run_event_from_trainer {cfg : Config} {env : Env} {e : Event}
    (he : e ∈ (train_framework cfg env).1) (hrun : e.isRun = true) :
    ∃ a b stats,
      (stageBuild cfg).2 = Except.ok a ∧
      (stageCkpt cfg env a).2 = Except.ok b ∧
      (stagePrep cfg env).2 = Except.ok stats ∧
      e ∈ (stageTrainerRun cfg b stats).1 := by
  unfold train_framework at he
  cases hA : (stageBuild cfg).2 with
  | error er =>
    rw [seqE_error hA] at he
    exact absurd hrun (by simp [(stageBuild_mem cfg e he).1])
  | ok a =>
    rw [seqE_ok hA] at he
    rcases List.mem_append.mp he with h1 | h1
    · exact absurd hrun (by simp [(stageBuild_mem cfg e h1).1])
    · cases hB : (stageCkpt cfg env a).2 with
      | error er =>
        rw [seqE_error hB] at h1
        exact absurd hrun (by simp [(stageCkpt_mem cfg env a e h1).1])
      | ok b =>
        rw [seqE_ok hB] at h1
        rcases List.mem_append.mp h1 with h2 | h2
        · exact absurd hrun (by simp [(stageCkpt_mem cfg env a e h2).1])
        · cases hP : (stagePrep cfg env).2 with
          | error er =>
            rw [seqE_error hP] at h2
            cases hev : cfg.train_config.eval with
            | false => rw [stagePrep_noeval env hev] at hP; simp at hP
            | true => rw [stagePrep_eval env hev] at hP; simp at hP
          | ok stats =>
            rw [seqE_ok hP] at h2
            rcases List.mem_append.mp h2 with h3 | h3
            · have : e.isPrep = true ∨ e ∈ ([] : List Event) := by
                cases hev : cfg.train_config.eval with
                | false => rw [stagePrep_noeval env hev] at h3; simp at h3
                | true =>
                  rw [stagePrep_eval env hev] at h3
                  simp at h3
                  subst h3
                  exact Or.inl rfl
              rcases this with hp | hp
              · cases e <;> simp_all [Event.isRun, Event.isPrep]
              · simp at hp
            · cases hL : (stageLinear cfg).2 with
              | error er =>
                rw [seqE_error hL] at h3
                exact absurd hrun (by simp [(stageLinear_mem cfg e h3).1])
              | ok u =>
                rw [seqE_ok hL] at h3
                rcases List.mem_append.mp h3 with h4 | h4
                · exact absurd hrun (by simp [(stageLinear_mem cfg e h4).1])
                · exact ⟨a, b, stats, rfl, hB, rfl, h4⟩

/-- Under a set checkpoint folder, an existing directory and nonempty G and D
glob results, the restore stage is exactly the load step on the two glob
heads. -/
theorem stageCkpt_eq_ckptLoad {cfg : Config} {env : Env} (a : StBuild) {f gpath dpath : String}
    {gs ds : List String}
    (hcf : cfg.train_config.checkpoint_folder = some f) (hex : env.folderExists = true)
    (hg : env.globG (when_of cfg) = gpath :: gs) (hd : env.globD (when_of cfg) = dpath :: ds) :
    stageCkpt cfg env a = ckptLoad cfg env a gpath dpath := by
  unfold stageCkpt
  rw [hcf]
  simp [hex, hg, hd]

/-- Zero G-pattern matches: the restore stage raises `IndexError`
(train.py line 142, `[0]` of an empty list). -/
theorem stageCkpt_empty_globG {cfg : Config} {env : Env} (a : StBuild) {f : String}
    (hcf : cfg.train_config.checkpoint_folder = some f) (hex : env.folderExists = true)
    (hg : env.globG (when_of cfg) = []) :
    stageCkpt cfg env a = ([], Except.error Err.indexError) := by
  unfold stageCkpt
  rw [hcf]
  simp [hex, hg]

/-- Zero D-pattern matches: the restore stage raises `IndexError`
(train.py line 143). -/
theorem stageCkpt_empty_globD {cfg : Config} {env : Env} (a : StBuild) {f gpath : String}
    {gs : List String}
    (hcf : cfg.train_config.checkpoint_folder = some f) (hex : env.folderExists = true)
    (hg : env.globG (when_of cfg) = gpath :: gs) (hd : env.globD (when_of cfg) = []) :
    stageCkpt cfg env a = ([], Except.error Err.indexError) := by
  unfold stageCkpt
  rw [hcf]
  simp [hex, hg, hd]

/-- Zero G_ema-pattern matches with EMA on: the load step raises `IndexError`
(train.py line 148). -/
theorem ckptLoad_empty_globGema {cfg : Config} {env : Env} (a : StBuild) {gpath dpath : String}
    (hema : cfg.ema = true) (hge : env.globGema (when_of cfg) = []) :
    ckptLoad cfg env a gpath dpath =
      ([Event.load_ckpt "G" gpath true, Event.load_ckpt "D" dpath true],
       Except.error Err.indexError) := by
  simp only [ckptLoad]
  simp [hema, hge]

/-- A non-run event is neither loop variant. -/
theorem run_variants_false {e : Event} (h : e.isRun = false) :
    e.isRunOurs = false ∧ e.isRunStd = false := by
  cases e <;> simp_all [Event.isRun, Event.isRunOurs, Event.isRunStd]

/-- The preparation stage emits at most the single preparation event. -/
theorem stagePrep_mem (cfg : Config) (env : Env) :
    ∀ e ∈ (stagePrep cfg env).1, e = Event.prepare_stats := by
  intro e he
  unfold stagePrep at he
  split at he <;> simp_all

/-- `okB` inversion. -/
theorem okB_true {α : Type} {x : Except Err α} (h : okB x = true) :
    ∃ r, x = Except.ok r := by
  cases x with
  | ok r => exact ⟨r, rfl⟩
  | error e => simp [okB] at h

/-- Every event of a run's trace comes from one of the five stages, the
trainer stage being reached only with all earlier stages succeeding. -/
theorem trace_event_cases {cfg : Config} {env : Env} {e : Event}
    (he : e ∈ (train_framework cfg env).1) :
    e ∈ (stageBuild cfg).1 ∨
    (∃ a, e ∈ (stageCkpt cfg env a).1) ∨
    e ∈ (stagePrep cfg env).1 ∨
    e ∈ (stageLinear cfg).1 ∨
    (∃ a b stats, (stageBuild cfg).2 = Except.ok a ∧ (stageCkpt cfg env a).2 = Except.ok b ∧
       (stagePrep cfg env).2 = Except.ok stats ∧ e ∈ (stageTrainerRun cfg b stats).1) := by
  unfold train_framework at he
  cases hA : (stageBuild cfg).2 with
  | error er =>
    rw [seqE_error hA] at he
    exact Or.inl he
  | ok a =>
    rw [seqE_ok hA] at he
    rcases List.mem_append.mp he with h1 | h1
    · exact Or.inl h1
    · cases hB : (stageCkpt cfg env a).2 with
      | error er =>
        rw [seqE_error hB] at h1
        exact Or.inr (Or.inl ⟨a, h1⟩)
      | ok b =>
        rw [seqE_ok hB] at h1
        rcases List.mem_append.mp h1 with h2 | h2
        · exact Or.inr (Or.inl ⟨a, h2⟩)
        · cases hP : (stagePrep cfg env).2 with
          | error er =>
            cases hev : cfg.train_config.eval with
            | false => rw [stagePrep_noeval env hev] at hP; simp at hP
            | true => rw [stagePrep_eval env hev] at hP; simp at hP
          | ok stats =>
            rw [seqE_ok hP] at h2
            rcases List.mem_append.mp h2 with h3 | h3
            · exact Or.inr (Or.inr (Or.inl h3))
            · cases hL : (stageLinear cfg).2 with
              | error er =>
                rw [seqE_error hL] at h3
                exact Or.inr (Or.inr (Or.inr (Or.inl h3)))
              | ok u =>
                rw [seqE_ok hL] at h3
                rcases List.mem_append.mp h3 with h4 | h4
                · exact Or.inr (Or.inr (Or.inr (Or.inl h4)))
                · exact Or.inr (Or.inr (Or.inr (Or.inr ⟨a, b, stats, rfl, hB, rfl, h4⟩)))

/-- `countP` of a sequenced trace is bounded by the parts' bounds. -/
theorem seqE_countP_le {α β : Type} (p : Event → Bool) (x : List Event × Except Err α)
    (f : α → List Event × Except Err β) {n m : Nat}
    (hx : x.1.countP p ≤ n) (hf : ∀ a, ((f a).1).countP p ≤ m) :
    ((seqE x f).1).countP p ≤ n + m := by
  cases h2 : x.2 with
  | error e =>
    rw [seqE_error h2]
    exact le_trans hx (Nat.le_add_right n m)
  | ok a =>
    rw [seqE_ok h2]
    rw [List.countP_append]
    exact Nat.add_le_add hx (hf a)

/-- With training disabled neither loop variant ever appears in the trace. -/
theorem no_run_of_train_false {cfg : Config} {env : Env}
    (h : cfg.train_config.train = false) :
    (train_framework cfg env).1.countP Event.isRun = 0 := by
  apply countP_eq_zero_of
  intro e he
  cases hr : e.isRun with
  | false => rfl
  | true =>
    obtain ⟨a, b, stats, _, _, _, hmem⟩ := run_event_from_trainer he hr
    exact absurd (stageTrainerRun_no_train b stats h e hmem) (by simp [hr])

/-- The load step always records the G and D loads (on the given paths). -/
theorem ckptLoad_loads_mem (cfg : Config) (env : Env) (a : StBuild) (gpath dpath : String) :
    Event.load_ckpt "G" gpath true ∈ (ckptLoad cfg env a gpath dpath).1 ∧
    Event.load_ckpt "D" dpath true ∈ (ckptLoad cfg env a gpath dpath).1 := by
  simp only [ckptLoad]
  repeat' split
  all_goals simp

/-! ### Claim theorems -/

/-- C3: for every configuration whose batch size is not divisible by the
(positive) number of compute devices, the assertion at train.py line 54 fails
before any model (Generator or Discriminator) is constructed and before any
training occurs: the whole run is the empty trace with the batch-size
`AssertionError`. -/
theorem C3_batch_divisibility (cfg : Config) (env : Env)
    (h0 : cfg.n_gpus ≠ 0) (h : cfg.batch_size % cfg.n_gpus ≠ 0) :
    train_framework cfg env = ([], Except.error (Err.assertionError bs_assert_msg)) ∧
    (train_framework cfg env).1.countP Event.isBuildModel = 0 ∧
    (train_framework cfg env).1.countP Event.isRun = 0 := by
  have hb := stageBuild_bad_batch h0 h
  have h2 : (stageBuild cfg).2 = Except.error (Err.assertionError bs_assert_msg) := by rw [hb]
  have htf : train_framework cfg env = ([], Except.error (Err.assertionError bs_assert_msg)) := by
    rw [train_framework_of_build_error env h2, hb]
  exact ⟨htf, by simp [htf], by simp [htf]⟩

/-- C3 witness: batch_size=5 on 2 devices fails the divisibility assertion
before anything is built. -/
theorem C3_batch_divisibility_witness :
    ({ cfg0 with batch_size := 5, n_gpus := 2 } : Config).n_gpus ≠ 0 ∧
    ({ cfg0 with batch_size := 5, n_gpus := 2 } : Config).batch_size %
      ({ cfg0 with batch_size := 5, n_gpus := 2 } : Config).n_gpus ≠ 0 ∧
    train_framework { cfg0 with batch_size := 5, n_gpus := 2 } env0 =
      ([], Except.error (Err.assertionError bs_assert_msg)) :=
  ⟨by decide, by decide,
   (C3_batch_divisibility { cfg0 with batch_size := 5, n_gpus := 2 } env0
      (by decide) (by decide)).1⟩

/-- C10: with zero detected devices the validation `batch_size % n_gpus`
itself raises `ZeroDivisionError` (Python semantics of `%` by zero), so the
intended divisibility diagnostic is never produced. -/
theorem C10_zero_devices (cfg : Config) (env : Env) (h : cfg.n_gpus = 0) :
    train_framework cfg env = ([], Except.error Err.zeroDivision) ∧
    (train_framework cfg env).2 ≠ Except.error (Err.assertionError bs_assert_msg) := by
  have hb := stageBuild_div_zero h
  have h2 : (stageBuild cfg).2 = Except.error Err.zeroDivision := by rw [hb]
  have htf : train_framework cfg env = ([], Except.error Err.zeroDivision) := by
    rw [train_framework_of_build_error env h2, hb]
  exact ⟨htf, by simp [htf]⟩

/-- C10 witness: zero devices raise `ZeroDivisionError`, not the batch-size
assertion. -/
theorem C10_zero_devices_witness :
    ({ cfg0 with n_gpus := 0 } : Config).n_gpus = 0 ∧
    train_framework { cfg0 with n_gpus := 0 } env0 = ([], Except.error Err.zeroDivision) :=
  ⟨by decide, (C10_zero_devices { cfg0 with n_gpus := 0 } env0 (by decide)).1⟩

/-- C4: an adversarial-loss key outside {vanilla, hinge, wasserstein} is
missing from the registered dicts; the lookup at trainer construction
(train.py line 225) raises `KeyError`, so no training loop ever runs and the
run never succeeds; for a present key, the selected pair is exactly the
registered pair. -/
theorem C4_adv_loss_selection (cfg : Config) (env : Env) :
    ((cfg.adv_loss ≠ "vanilla" ∧ cfg.adv_loss ≠ "hinge" ∧ cfg.adv_loss ≠ "wasserstein") ↔
       G_loss cfg.adv_loss = none) ∧
    (G_loss cfg.adv_loss = none →
       (∀ b stats, stageTrainerRun cfg b stats = ([], Except.error (Err.keyError cfg.adv_loss))) ∧
       (train_framework cfg env).1.countP Event.isRun = 0 ∧
       (∀ res, (train_framework cfg env).2 ≠ Except.ok res)) ∧
    (∀ res, (train_framework cfg env).2 = Except.ok res →
       G_loss cfg.adv_loss = some res.g_loss_fn ∧ D_loss cfg.adv_loss = some res.d_loss_fn) := by
  refine ⟨?_, fun hnone => ⟨fun b stats => stageTrainerRun_keyError b stats hnone, ?_, ?_⟩, ?_⟩
  · unfold G_loss
    split_ifs <;> simp_all
  · apply countP_eq_zero_of
    intro e he
    cases hr : e.isRun with
    | false => rfl
    | true =>
      obtain ⟨a, b, stats, _, _, _, hmem⟩ := run_event_from_trainer he hr
      rw [stageTrainerRun_keyError b stats hnone] at hmem
      simp at hmem
  · intro res hres
    obtain ⟨a, b, stats, _, _, _, hT, _⟩ := train_framework_ok_decompose hres
    rw [stageTrainerRun_keyError b stats hnone] at hT
    simp at hT
  · intro res hres
    obtain ⟨a, b, stats, _, _, _, hT, _⟩ := train_framework_ok_decompose hres
    obtain ⟨_, _, _, _, _, _, hG, hD, _⟩ := stageTrainerRun_ok hT
    exact ⟨hG, hD⟩

/-- C4 witness: the unregistered key "lsgan" yields a `KeyError` at trainer
construction and a run with no training-loop events. -/
theorem C4_adv_loss_selection_witness :
    G_loss ({ cfg0 with adv_loss := "lsgan" } : Config).adv_loss = none ∧
    stageTrainerRun { cfg0 with adv_loss := "lsgan" }
        ⟨⟨"G", false, false, none⟩, ⟨"D", false, false, none⟩, none, none,
          ⟨"Adam", none⟩, ⟨"Adam", none⟩, 0, 0, none, none⟩ none =
      ([], Except.error (Err.keyError "lsgan")) ∧
    (train_framework { cfg0 with adv_loss := "lsgan" } env0).1.countP Event.isRun = 0 := by
  have h := C4_adv_loss_selection { cfg0 with adv_loss := "lsgan" } env0
  have hnone : G_loss ({ cfg0 with adv_loss := "lsgan" } : Config).adv_loss = none := by decide
  exact ⟨hnone, (h.2.1 hnone).1 _ _, (h.2.1 hnone).2.1⟩

/-- C6: with training enabled and a successful run, exactly one loop variant
was invoked: `run_ours` for ContraGAN / Proxy_NCA_GAN / XT_Xent_GAN and `run`
otherwise (train.py lines 264-267); with training disabled neither loop
appears anywhere in the trace. -/
theorem C6_loop_variant_selection (cfg : Config) (env : Env) :
    (okB (train_framework cfg env).2 = true → cfg.train_config.train = true →
       (contrastive_strategy cfg →
          (train_framework cfg env).1.countP Event.isRunOurs = 1 ∧
          (train_framework cfg env).1.countP Event.isRunStd = 0) ∧
       (¬ contrastive_strategy cfg →
          (train_framework cfg env).1.countP Event.isRunStd = 1 ∧
          (train_framework cfg env).1.countP Event.isRunOurs = 0)) ∧
    (cfg.train_config.train = false →
       (train_framework cfg env).1.countP Event.isRun = 0) := by
  constructor
  · intro hok htrain
    obtain ⟨res, hres⟩ := okB_true hok
    obtain ⟨a, b, stats, hA, hB, hP, hT, htr⟩ := train_framework_ok_decompose hres
    obtain ⟨_, _, _, _, _, _, _, _, _, hOurs, hStd, _⟩ := stageTrainerRun_ok hT
    have z1 : ∀ (p : Event → Bool), (∀ e, e.isRun = false → p e = false) →
        (stageBuild cfg).1.countP p = 0 ∧ (stageCkpt cfg env a).1.countP p = 0 ∧
        (stagePrep cfg env).1.countP p = 0 ∧ (stageLinear cfg).1.countP p = 0 := by
      intro p hp
      refine ⟨countP_eq_zero_of fun e he => hp e (stageBuild_mem cfg e he).1,
              countP_eq_zero_of fun e he => hp e (stageCkpt_mem cfg env a e he).1,
              countP_eq_zero_of fun e he => ?_,
              countP_eq_zero_of fun e he => hp e (stageLinear_mem cfg e he).1⟩
      have := stagePrep_mem cfg env e he
      subst this
      exact hp _ rfl
    have zOurs := z1 Event.isRunOurs fun e he => (run_variants_false he).1
    have zStd := z1 Event.isRunStd fun e he => (run_variants_false he).2
    constructor
    · intro hc
      obtain ⟨_, c1, c0⟩ := hOurs htrain hc
      constructor
      · rw [htr]
        simp [List.countP_append, zOurs.1, zOurs.2.1, zOurs.2.2.1, zOurs.2.2.2, c1]
      · obtain ⟨_, _, c0'⟩ := hOurs htrain hc
        rw [htr]
        simp [List.countP_append, zStd.1, zStd.2.1, zStd.2.2.1, zStd.2.2.2, c0]
    · intro hc
      obtain ⟨_, c1, c0⟩ := hStd htrain hc
      constructor
      · rw [htr]
        simp [List.countP_append, zStd.1, zStd.2.1, zStd.2.2.1, zStd.2.2.2, c1]
      · rw [htr]
        simp [List.countP_append, zOurs.1, zOurs.2.1, zOurs.2.2.1, zOurs.2.2.2, c0]
  · exact no_run_of_train_false

/-- C6 witness: a ContraGAN run invokes exactly one `run_ours` and no `run`;
with training disabled no loop event appears. -/
theorem C6_loop_variant_selection_witness :
    okB (train_framework { cfg0 with conditional_strategy := "ContraGAN" } env0).2 = true ∧
    (train_framework { cfg0 with conditional_strategy := "ContraGAN" } env0).1.countP
        Event.isRunOurs = 1 ∧
    (train_framework { cfg0 with conditional_strategy := "ContraGAN" } env0).1.countP
        Event.isRunStd = 0 := by
  have h := (C6_loop_variant_selection { cfg0 with conditional_strategy := "ContraGAN" } env0).1
    (by decide) (by decide) |>.1 (by left; decide)
  exact ⟨by decide, h.1, h.2⟩

/-- C5: the reference-statistics preparer runs at most once on every path,
never when evaluation is off, and on a successful run with evaluation on it
runs exactly once, strictly before any training-loop event, its cached result
being the statistics handed to the Trainer. -/
theorem C5_reference_stats_once (cfg : Config) (env : Env) :
    (train_framework cfg env).1.countP Event.isPrep ≤ 1 ∧
    (cfg.train_config.eval = false →
       (train_framework cfg env).1.countP Event.isPrep = 0) ∧
    (okB (train_framework cfg env).2 = true → cfg.train_config.eval = true →
       ∃ l1 l2, (train_framework cfg env).1 = l1 ++ l2 ∧
         l1.countP Event.isPrep = 1 ∧ l2.countP Event.isPrep = 0 ∧
         l1.countP Event.isRun = 0 ∧
         ∀ res, (train_framework cfg env).2 = Except.ok res →
           res.trainer_stats = some env.prepared) := by
  have hSB : (stageBuild cfg).1.countP Event.isPrep = 0 :=
    countP_eq_zero_of fun e he => (stageBuild_mem cfg e he).2.1
  have hSC : ∀ a, (stageCkpt cfg env a).1.countP Event.isPrep = 0 :=
    fun a => countP_eq_zero_of fun e he => (stageCkpt_mem cfg env a e he).2.1
  have hSL : (stageLinear cfg).1.countP Event.isPrep = 0 :=
    countP_eq_zero_of fun e he => (stageLinear_mem cfg e he).2.1
  have hST : ∀ b stats, (stageTrainerRun cfg b stats).1.countP Event.isPrep = 0 :=
    fun b stats => countP_eq_zero_of fun e he => (stageTrainerRun_mem cfg b stats e he).1
  have hSPle : (stagePrep cfg env).1.countP Event.isPrep ≤ 1 := by
    cases hev : cfg.train_config.eval with
    | false => rw [stagePrep_noeval env hev]; simp
    | true => rw [stagePrep_eval env hev]; simp [List.countP_cons, Event.isPrep]
  refine ⟨?_, ?_, ?_⟩
  · have h := seqE_countP_le Event.isPrep (stageBuild cfg) _ (le_of_eq hSB)
      (fun a => seqE_countP_le Event.isPrep (stageCkpt cfg env a) _ (le_of_eq (hSC a))
        (fun b => seqE_countP_le Event.isPrep (stagePrep cfg env) _ hSPle
          (fun stats => seqE_countP_le Event.isPrep (stageLinear cfg) _ (le_of_eq hSL)
            (fun _ => le_of_eq (hST b stats)))))
    simpa [train_framework] using h
  · intro hev
    have hSP0 : (stagePrep cfg env).1.countP Event.isPrep ≤ 0 := by
      rw [stagePrep_noeval env hev]
      simp
    have h := seqE_countP_le Event.isPrep (stageBuild cfg) _ (le_of_eq hSB)
      (fun a => seqE_countP_le Event.isPrep (stageCkpt cfg env a) _ (le_of_eq (hSC a))
        (fun b => seqE_countP_le Event.isPrep (stagePrep cfg env) _ hSP0
          (fun stats => seqE_countP_le Event.isPrep (stageLinear cfg) _ (le_of_eq hSL)
            (fun _ => le_of_eq (hST b stats)))))
    have h2 : (train_framework cfg env).1.countP Event.isPrep ≤ 0 := by
      simpa [train_framework] using h
    exact Nat.le_zero.mp h2
  · intro hok hev
    obtain ⟨res, hres⟩ := okB_true hok
    obtain ⟨a, b, stats, hA, hB, hP, hT, htr⟩ := train_framework_ok_decompose hres
    refine ⟨(stageBuild cfg).1 ++ ((stageCkpt cfg env a).1 ++ (stagePrep cfg env).1),
            (stageLinear cfg).1 ++ (stageTrainerRun cfg b stats).1, ?_, ?_, ?_, ?_, ?_⟩
    · rw [htr]
      simp [List.append_assoc]
    · rw [stagePrep_eval env hev]
      simp [List.countP_append, hSB, hSC a, List.countP_cons, Event.isPrep]
    · simp [List.countP_append, hSL, hST b stats]
    · have hRun1 : (stageBuild cfg).1.countP Event.isRun = 0 :=
        countP_eq_zero_of fun e he => (stageBuild_mem cfg e he).1
      have hRun2 : (stageCkpt cfg env a).1.countP Event.isRun = 0 :=
        countP_eq_zero_of fun e he => (stageCkpt_mem cfg env a e he).1
      have hRun3 : (stagePrep cfg env).1.countP Event.isRun = 0 := by
        apply countP_eq_zero_of
        intro e he
        have := stagePrep_mem cfg env e he
        subst this
        rfl
      simp [List.countP_append, hRun1, hRun2, hRun3]
    · intro res2 hres2
      obtain ⟨a2, b2, stats2, hA2, hB2, hP2, hT2, _⟩ := train_framework_ok_decompose hres2
      have hstats2 : stats2 = some env.prepared := by
        have := stagePrep_eval env hev
        rw [this] at hP2
        injection hP2 with h2
        exact h2.symm
      obtain ⟨_, _, _, _, hts, _⟩ := stageTrainerRun_ok hT2
      rw [hts, hstats2]

/-- C5 witness: with evaluation on, a successful run has exactly one
preparation event before all loop events and the prepared statistics cached
for the Trainer. -/
theorem C5_reference_stats_once_witness :
    (train_framework { cfg0 with
        train_config := { (cfg0.train_config) with eval := true } } env0).1.countP
      Event.isPrep ≤ 1 ∧
    okB (train_framework { cfg0 with
        train_config := { (cfg0.train_config) with eval := true } } env0).2 = true ∧
    (train_framework { cfg0 with
        train_config := { (cfg0.train_config) with eval := true } } env0).1.countP
      Event.isPrep = 1 := by
  have h := C5_reference_stats_once
    { cfg0 with train_config := { (cfg0.train_config) with eval := true } } env0
  refine ⟨h.1, by decide, ?_⟩
  obtain ⟨l1, l2, heq, h1, h2, _, _⟩ := h.2.2 (by decide) (by decide)
  rw [heq, List.countP_append, h1, h2]

/-- C7: the step handed to the training loop is 0 on a fresh start and the
checkpoint's stored step on resume; the (spec-modelled) loop returns the final
step count, which is the step passed to the post-training evaluation call. -/
theorem C7_step_counter (cfg : Config) (env : Env)
    (hok : okB (train_framework cfg env).2 = true) :
    (cfg.train_config.checkpoint_folder = none → resume_step cfg env = 0) ∧
    (∀ f, cfg.train_config.checkpoint_folder = some f →
       ∀ dpath ds, env.globD (when_of cfg) = dpath :: ds →
         resume_step cfg env = (env.ckpt dpath).step) ∧
    (cfg.train_config.train = true →
       (Event.run_ours (resume_step cfg env) cfg.total_step ∈ (train_framework cfg env).1 ∨
        Event.run (resume_step cfg env) cfg.total_step ∈ (train_framework cfg env).1) ∧
       ∀ res, (train_framework cfg env).2 = Except.ok res →
         res.step = trainerRun (resume_step cfg env) cfg.total_step ∧
         (cfg.train_config.eval = true →
            Event.evaluation res.step ∈ (train_framework cfg env).1)) := by
  obtain ⟨res, hres⟩ := okB_true hok
  obtain ⟨a, b, stats, hA, hB, hP, hT, htr⟩ := train_framework_ok_decompose hres
  have hstep : b.step = resume_step cfg env := by
    cases hcf : cfg.train_config.checkpoint_folder with
    | none =>
      have := stageCkpt_none env a hcf
      rw [this] at hB
      injection hB with h2
      rw [← h2]
      unfold resume_step
      rw [hcf]
    | some f =>
      obtain ⟨gpath, gs, dpath, ds, hg, hd, heq⟩ := stageCkpt_some_ok hcf hB
      rw [heq] at hB
      obtain ⟨_, _, _, _, _, hbs, _⟩ := ckptLoad_ok hB
      rw [hbs]
      unfold resume_step
      rw [hcf, hd]
  refine ⟨?_, ?_, ?_⟩
  · intro hcf
    unfold resume_step
    rw [hcf]
  · intro f hcf dpath ds hd
    unfold resume_step
    rw [hcf, hd]
  · intro htrain
    obtain ⟨_, _, _, _, _, _, _, _, hstepres, hOurs, hStd, hEval⟩ := stageTrainerRun_ok hT
    have hlift : ∀ e, e ∈ (stageTrainerRun cfg b stats).1 → e ∈ (train_framework cfg env).1 := by
      intro e he
      rw [htr]
      simp only [List.mem_append]
      exact Or.inr (Or.inr (Or.inr (Or.inr he)))
    constructor
    · by_cases hc : contrastive_strategy cfg
      · obtain ⟨hm, _, _⟩ := hOurs htrain hc
        rw [← hstep]
        exact Or.inl (hlift _ hm)
      · obtain ⟨hm, _, _⟩ := hStd htrain hc
        rw [← hstep]
        exact Or.inr (hlift _ hm)
    · intro res2 hres2
      have : res2 = res := by
        rw [hres] at hres2
        injection hres2 with h2
        exact h2.symm
      subst this
      constructor
      · rw [hstepres, htrain, ← hstep]
        simp
      · intro hev
        exact hlift _ (hEval hev)

/-- C7 witness: a resume from a checkpoint at step 42 hands 42 to the loop
(not 0) and continues from there. -/
theorem C7_step_counter_witness :
    okB (train_framework cfgR envR).2 = true ∧
    resume_step cfgR envR = 42 ∧
    (Event.run_ours 42 10 ∈ (train_framework cfgR envR).1 ∨
     Event.run 42 10 ∈ (train_framework cfgR envR).1) := by
  have h := C7_step_counter cfgR envR (by decide)
  have hrs : resume_step cfgR envR = 42 := by decide
  have hm := (h.2.2 (by decide)).1
  rw [hrs] at hm
  have ht : cfgR.total_step = 10 := by decide
  rw [ht] at hm
  exact ⟨by decide, hrs, hm⟩

/-- Every checkpoint-load event in a trace comes from the restore stage. -/
theorem load_event_from_ckpt {cfg : Config} {env : Env} {e : Event}
    (he : e ∈ (train_framework cfg env).1) (hl : e.isLoad = true) :
    ∃ a, e ∈ (stageCkpt cfg env a).1 := by
  rcases trace_event_cases he with h | h | h | h | h
  · exact absurd (stageBuild_mem cfg e h).2.2.1 (by simp [hl])
  · exact h
  · have := stagePrep_mem cfg env e h
    subst this
    simp [Event.isLoad] at hl
  · exact absurd (stageLinear_mem cfg e h).2.2.2.1 (by simp [hl])
  · obtain ⟨a, b, stats, _, _, _, hm⟩ := h
    exact absurd (stageTrainerRun_mem cfg b stats e hm).2.2.1 (by simp [hl])

/-- The EMA copy is never given the replication patch, on any path. -/
theorem no_patch_gema (cfg : Config) (env : Env) :
    Event.patch_replication "G_ema" ∉ (train_framework cfg env).1 := by
  intro hmem
  rcases trace_event_cases hmem with h | h | h | h | h
  · exact (stageBuild_mem cfg _ h).2.2.2.1 rfl
  · obtain ⟨a, h⟩ := h
    exact (stageCkpt_mem cfg env a _ h).2.2.2.2.1 rfl
  · have := stagePrep_mem cfg env _ h
    simp at this
  · exact (stageLinear_mem cfg _ h).2.2.2.2 rfl
  · obtain ⟨a, b, stats, _, _, _, hm⟩ := h
    exact (stageTrainerRun_mem cfg b stats _ hm).2.2.2 rfl

/-- C8: restoring the Generator-EMA checkpoint never passes optimizer state
to the load operation (every `G_ema` load event carries `withOptimizer =
false`), and on a successful resume with EMA the restored copy comes from the
head of the G_ema glob result, with the updater rebound to the restored live
Generator as source and the restored copy as target. -/
theorem C8_ema_restore (cfg : Config) (env : Env) {f : String}
    (hcf : cfg.train_config.checkpoint_folder = some f) (hema : cfg.ema = true) :
    (∀ p, Event.load_ckpt "G_ema" p true ∉ (train_framework cfg env).1) ∧
    (∀ res, (train_framework cfg env).2 = Except.ok res →
       ∃ epath es gpath, env.globGema (when_of cfg) = epath :: es ∧
         Event.load_ckpt "G_ema" epath false ∈ (train_framework cfg env).1 ∧
         ∃ gc, res.gen_copy = some gc ∧ gc.loadedFrom = some epath ∧
           res.gen.loadedFrom = some gpath ∧
           res.gen_ema = some ⟨res.gen, gc⟩) := by
  constructor
  · intro p hmem
    obtain ⟨a, hm⟩ := load_event_from_ckpt hmem rfl
    have := (stageCkpt_mem cfg env a _ hm).2.2.2.2.2 p true rfl
    simp at this
  · intro res hres
    obtain ⟨a, b, stats, hA, hB, hP, hT, htr⟩ := train_framework_ok_decompose hres
    obtain ⟨gpath, gs, dpath, ds, hg, hd, heq⟩ := stageCkpt_some_ok hcf hB
    rw [heq] at hB
    obtain ⟨_, hbgen, _, _, _, _, _, _, _, hEma, _⟩ := ckptLoad_ok hB
    obtain ⟨epath, es, hge, hbcopy, hbema, hmemE⟩ := hEma hema
    obtain ⟨hBuildEma, _, _⟩ := stageBuild_ok hA
    obtain ⟨_, ⟨gc0, hgc0, _, _⟩⟩ := hBuildEma hema
    obtain ⟨hgenR, _, hcopyR, hemaR, _⟩ := stageTrainerRun_ok hT
    have hbcopy2 : b.gen_copy = some { gc0 with loadedFrom := some epath } := by
      rw [hbcopy, hgc0]
      rfl
    refine ⟨epath, es, gpath, hge, ?_, ?_⟩
    · rw [htr, heq]
      simp only [List.mem_append]
      exact Or.inr (Or.inl hmemE)
    · refine ⟨{ gc0 with loadedFrom := some epath }, ?_, rfl, ?_, ?_⟩
      · rw [hcopyR, hbcopy2]
      · rw [hgenR, hbgen]
      · rw [hemaR, hbema, hbcopy2, hgenR]
        rfl

/-- C9: the EMA shadow Generator is only ever constructed with
`synchronized_bn=False, initialize=False`; the replication patch is never
applied to it, while on multi-GPU with `synchronized_bn` the live Generator
and Discriminator are patched. -/
theorem C9_ema_copy_construction (cfg : Config) (env : Env) :
    (∀ sb i, Event.build_gen_copy sb i ∈ (train_framework cfg env).1 →
       sb = false ∧ i = false) ∧
    (Event.patch_replication "G_ema" ∉ (train_framework cfg env).1) ∧
    (∀ res, (train_framework cfg env).2 = Except.ok res → cfg.ema = true →
       Event.build_gen_copy false false ∈ (train_framework cfg env).1 ∧
       (∃ gc, res.gen_copy = some gc ∧ gc.patched = false) ∧
       (1 < cfg.n_gpus → cfg.synchronized_bn = true →
          res.gen.patched = true ∧ res.dis.patched = true ∧
          Event.patch_replication "G" ∈ (train_framework cfg env).1 ∧
          Event.patch_replication "D" ∈ (train_framework cfg env).1)) := by
  refine ⟨?_, no_patch_gema cfg env, ?_⟩
  · intro sb i hmem
    rcases trace_event_cases hmem with h | h | h | h | h
    · exact (stageBuild_mem cfg _ h).2.2.2.2 sb i rfl
    · obtain ⟨a, h⟩ := h
      have := (stageCkpt_mem cfg env a _ h).2.2.1
      simp [Event.isBuildModel] at this
    · have := stagePrep_mem cfg env _ h
      simp at this
    · have := (stageLinear_mem cfg _ h).2.2.1
      simp [Event.isBuildModel] at this
    · obtain ⟨a, b, stats, _, _, _, hm⟩ := h
      have := (stageTrainerRun_mem cfg b stats _ hm).2.1
      simp [Event.isBuildModel] at this
  · intro res hres hema
    obtain ⟨a, b, stats, hA, hB, hP, hT, htr⟩ := train_framework_ok_decompose hres
    obtain ⟨hBuildEma, _, hPatch⟩ := stageBuild_ok hA
    obtain ⟨hmemCopy, gc0, hgc0, hgc0p, _⟩ := hBuildEma hema
    obtain ⟨hgenR, hdisR, hcopyR, _, _⟩ := stageTrainerRun_ok hT
    have hliftB : ∀ e, e ∈ (stageBuild cfg).1 → e ∈ (train_framework cfg env).1 := by
      intro e he
      rw [htr]
      simp only [List.mem_append]
      exact Or.inl he
    have hbfields : b.gen.patched = a.gen.patched ∧ b.dis.patched = a.dis.patched ∧
        (∃ gc, b.gen_copy = some gc ∧ gc.patched = gc0.patched) := by
      cases hcf : cfg.train_config.checkpoint_folder with
      | none =>
        have := stageCkpt_none env a hcf
        rw [this] at hB
        injection hB with h2
        rw [← h2]
        exact ⟨rfl, rfl, gc0, by rw [hgc0], rfl⟩
      | some f =>
        obtain ⟨gpath, gs, dpath, ds, hg, hd, heq⟩ := stageCkpt_some_ok hcf hB
        rw [heq] at hB
        obtain ⟨_, hbgen, hbdis, _, _, _, _, _, _, hEma, _⟩ := ckptLoad_ok hB
        obtain ⟨epath, es, _, hbcopy, _, _⟩ := hEma hema
        refine ⟨by rw [hbgen], by rw [hbdis], { gc0 with loadedFrom := some epath }, ?_, rfl⟩
        rw [hbcopy, hgc0]
        rfl
    obtain ⟨hbg, hbd, gc, hgc, hgcp⟩ := hbfields
    refine ⟨hliftB _ hmemCopy, ⟨gc, by rw [hcopyR]; exact hgc, by rw [hgcp, hgc0p]⟩, ?_⟩
    intro hgpu hsync
    obtain ⟨hap, hdp, hmG, hmD⟩ := hPatch hgpu hsync
    exact ⟨by rw [hgenR, hbg, hap], by rw [hdisR, hbd, hdp], hliftB _ hmG, hliftB _ hmD⟩

/-- C8 witness: resume with EMA on — the G_ema load carries no optimizer and
the updater is rebound to the restored models. -/
theorem C8_ema_restore_witness :
    okB (train_framework { cfgR with ema := true } envR).2 = true ∧
    Event.load_ckpt "G_ema" "e.pth" false ∈
      (train_framework { cfgR with ema := true } envR).1 ∧
    (Event.load_ckpt "G_ema" "e.pth" true ∉
      (train_framework { cfgR with ema := true } envR).1) := by
  have h := C8_ema_restore { cfgR with ema := true } envR (f := "ck") (by decide) (by decide)
  have hok : (train_framework { cfgR with ema := true } envR).2 =
      Except.ok ⟨⟨"G", false, false, some "g.pth"⟩, ⟨"D", false, false, some "d.pth"⟩,
        some ⟨"G_ema", false, false, some "e.pth"⟩,
        some ⟨⟨"G", false, false, some "g.pth"⟩, ⟨"G_ema", false, false, some "e.pth"⟩⟩,
        ⟨"Adam", some "g.pth"⟩, ⟨"Adam", some "d.pth"⟩, none,
        GLossFn.loss_hinge_gen, DLossFn.loss_hinge_dis, 42, 30⟩ := by rfl
  obtain ⟨epath, es, gpath, hge, hmem, _⟩ := h.2 _ hok
  have hep : epath = "e.pth" := by
    have : envR.globGema (when_of { cfgR with ema := true }) = ["e.pth"] := by decide
    rw [this] at hge
    injection hge with h1 _
    exact h1.symm
  subst hep
  exact ⟨by decide, hmem, h.1 "e.pth"⟩

/-- C9 witness: a multi-GPU synchronized-bn EMA run builds the copy with both
flags off, patches G and D, and never patches the copy. -/
theorem C9_ema_copy_construction_witness :
    okB (train_framework { cfg0 with ema := true, n_gpus := 2, synchronized_bn := true }
        env0).2 = true ∧
    Event.build_gen_copy false false ∈
      (train_framework { cfg0 with ema := true, n_gpus := 2, synchronized_bn := true }
        env0).1 ∧
    Event.patch_replication "G" ∈
      (train_framework { cfg0 with ema := true, n_gpus := 2, synchronized_bn := true }
        env0).1 ∧
    (Event.patch_replication "G_ema" ∉
      (train_framework { cfg0 with ema := true, n_gpus := 2, synchronized_bn := true }
        env0).1) := by
  have h := C9_ema_copy_construction
    { cfg0 with ema := true, n_gpus := 2, synchronized_bn := true } env0
  have hok : (train_framework
      { cfg0 with ema := true, n_gpus := 2, synchronized_bn := true } env0).2 =
      Except.ok ⟨⟨"G", true, true, none⟩, ⟨"D", true, true, none⟩,
        some ⟨"G_ema", true, false, none⟩,
        some ⟨⟨"G", false, false, none⟩, ⟨"G_ema", false, false, none⟩⟩,
        ⟨"Adam", none⟩, ⟨"Adam", none⟩, none,
        GLossFn.loss_hinge_gen, DLossFn.loss_hinge_dis, 10, 0⟩ := by rfl
  obtain ⟨hb, _, hp⟩ := h.2.2 _ hok (by decide)
  obtain ⟨_, _, hg, _⟩ := hp (by decide) (by decide)
  exact ⟨by decide, hb, hg, h.2.1⟩

/-- C1: on a resume attempt whose checkpoint seed differs from the configured
seed, no training loop is ever invoked and the run fails; when the run reaches
the restore stage (build succeeded, folder exists, globs nonempty) the failure
is precisely the seed-mismatch assertion of train.py line 153. -/
theorem C1_resume_seed_guard (cfg : Config) (env : Env) {f dpath : String} {ds : List String}
    (hcf : cfg.train_config.checkpoint_folder = some f)
    (hd : env.globD (when_of cfg) = dpath :: ds)
    (hne : (env.ckpt dpath).seed ≠ cfg.seed) :
    ((train_framework cfg env).1.countP Event.isRun = 0 ∧
     ∃ er, (train_framework cfg env).2 = Except.error er) ∧
    (∀ a, (stageBuild cfg).2 = Except.ok a → env.folderExists = true →
       ∀ gpath gs, env.globG (when_of cfg) = gpath :: gs →
       (cfg.ema = true → env.globGema (when_of cfg) ≠ []) →
       (train_framework cfg env).2 = Except.error (Err.assertionError seed_assert_msg)) := by
  have hnotok : ∀ (a : StBuild) (b : StCkpt), (stageCkpt cfg env a).2 ≠ Except.ok b := by
    intro a b hB
    obtain ⟨gpath, gs, dpath2, ds2, hg, hd2, heq⟩ := stageCkpt_some_ok hcf hB
    have hdp : dpath2 = dpath := by
      rw [hd] at hd2
      injection hd2 with h1 _
      exact h1.symm
    rw [heq] at hB
    have hseed := (ckptLoad_ok hB).1
    rw [hdp] at hseed
    exact hne hseed.symm
  constructor
  · constructor
    · apply countP_eq_zero_of
      intro e he
      cases hr : e.isRun with
      | false => rfl
      | true =>
        obtain ⟨a, b, stats, _, hB, _, _⟩ := run_event_from_trainer he hr
        exact absurd hB (hnotok a b)
    · apply except_error_of_not_ok
      intro res hres
      obtain ⟨a, b, stats, _, hB, _, _, _⟩ := train_framework_ok_decompose hres
      exact hnotok a b hB
  · intro a hA hex gpath gs hg hgema
    have heq := stageCkpt_eq_ckptLoad a hcf hex hg hd
    have hm := (@ckptLoad_mismatch cfg env a gpath dpath (Ne.symm hne)).2 hgema
    unfold train_framework
    rw [seqE_ok hA]
    dsimp only
    rw [heq, seqE_error hm]

/-- C1 witness: resume with configured seed 1 against a checkpoint recording
seed 0 — no loop events, and the run fails with the seed assertion. -/
theorem C1_resume_seed_guard_witness :
    envR.globD (when_of { cfgR with seed := 1 }) = ["d.pth"] ∧
    (envR.ckpt "d.pth").seed ≠ ({ cfgR with seed := 1 } : Config).seed ∧
    (train_framework { cfgR with seed := 1 } envR).1.countP Event.isRun = 0 ∧
    (train_framework { cfgR with seed := 1 } envR).2 =
      Except.error (Err.assertionError seed_assert_msg) := by
  have h := @C1_resume_seed_guard { cfgR with seed := 1 } envR "ck" "d.pth" []
    (by rfl) (by rfl) (by decide)
  refine ⟨by rfl, by decide, h.1.1, ?_⟩
  exact h.2 ⟨⟨"G", false, false, none⟩, ⟨"D", false, false, none⟩, none, none,
    ⟨"Adam", none⟩, ⟨"Adam", none⟩⟩ (by rfl) (by rfl) "g.pth" [] (by rfl) (fun _ => by decide)

/-- C2 counterexample: with two files matching the Generator pattern the code
does not raise an ambiguity error — it silently proceeds with the first glob
match (`glob.glob(...)[0]`, train.py line 142) and the run succeeds. -/
theorem C2_checkpoint_lookup_counterexample :
    1 < (envR2.globG (when_of cfgR)).length ∧
    okB (train_framework cfgR envR2).2 = true ∧
    Event.load_ckpt "G" "g1.pth" true ∈ (train_framework cfgR envR2).1 :=
  ⟨by decide, by decide, by decide⟩

/-- C2 (amended): the checkpoint load takes the FIRST file in glob order
matching the slot and role pattern; zero matches raise `IndexError` (the `[0]`
on an empty glob list); with more than one match it silently proceeds with the
first — no ambiguity check exists. -/
theorem C2_checkpoint_lookup_amended (cfg : Config) (env : Env) (a : StBuild) {f : String}
    (hcf : cfg.train_config.checkpoint_folder = some f) (hex : env.folderExists = true) :
    (env.globG (when_of cfg) = [] →
       stageCkpt cfg env a = ([], Except.error Err.indexError)) ∧
    (∀ gpath gs, env.globG (when_of cfg) = gpath :: gs → env.globD (when_of cfg) = [] →
       stageCkpt cfg env a = ([], Except.error Err.indexError)) ∧
    (∀ gpath gs dpath ds, env.globG (when_of cfg) = gpath :: gs →
       env.globD (when_of cfg) = dpath :: ds →
       stageCkpt cfg env a = ckptLoad cfg env a gpath dpath ∧
       Event.load_ckpt "G" gpath true ∈ (stageCkpt cfg env a).1 ∧
       Event.load_ckpt "D" dpath true ∈ (stageCkpt cfg env a).1 ∧
       (cfg.ema = true → env.globGema (when_of cfg) = [] →
          (stageCkpt cfg env a).2 = Except.error Err.indexError) ∧
       (cfg.ema = true → ∀ epath es, env.globGema (when_of cfg) = epath :: es →
          Event.load_ckpt "G_ema" epath false ∈ (stageCkpt cfg env a).1)) := by
  refine ⟨fun hg => stageCkpt_empty_globG a hcf hex hg,
          fun gpath gs hg hd => stageCkpt_empty_globD a hcf hex hg hd,
          fun gpath gs dpath ds hg hd => ?_⟩
  have heq := stageCkpt_eq_ckptLoad a hcf hex hg hd
  have hloads := ckptLoad_loads_mem cfg env a gpath dpath
  refine ⟨heq, by rw [heq]; exact hloads.1, by rw [heq]; exact hloads.2, ?_, ?_⟩
  · intro hema hge
    rw [heq, ckptLoad_empty_globGema a hema hge]
  · intro hema epath es hge
    rw [heq]
    simp only [ckptLoad, hema, hge]
    repeat' split
    all_goals simp_all

/-- C2 amended witness: with glob matches ["g1.pth", "g2.pth"] the G load
uses "g1.pth" and the D load "d.pth". -/
theorem C2_checkpoint_lookup_amended_witness :
    Event.load_ckpt "G" "g1.pth" true ∈
      (stageCkpt cfgR envR2 ⟨⟨"G", false, false, none⟩, ⟨"D", false, false, none⟩, none, none,
        ⟨"Adam", none⟩, ⟨"Adam", none⟩⟩).1 ∧
    Event.load_ckpt "D" "d.pth" true ∈
      (stageCkpt cfgR envR2 ⟨⟨"G", false, false, none⟩, ⟨"D", false, false, none⟩, none, none,
        ⟨"Adam", none⟩, ⟨"Adam", none⟩⟩).1 := by
  have h := C2_checkpoint_lookup_amended cfgR envR2
    ⟨⟨"G", false, false, none⟩, ⟨"D", false, false, none⟩, none, none,
      ⟨"Adam", none⟩, ⟨"Adam", none⟩⟩ (f := "ck") (by rfl) (by decide)
  obtain ⟨_, hG, hD, _, _⟩ := h.2.2 "g1.pth" ["g2.pth"] "d.pth" [] (by rfl) (by rfl)
  exact ⟨hG, hD⟩

end StudioGAN
